import Mathlib

/-!
Verification of the TSL2561 light-sensor driver
(src/extras/tsl2561/tsl2561.c) against its specification.

The driver's lux computation is pure integer arithmetic on 32-bit
unsigned values; we embed it over Nat with explicit reduction modulo
2^32 at every point where the C code performs a uint32 operation.
Bus transactions (i2c reads/writes) and the task delay are external
collaborators; writes are modelled by an abstract bus oracle
`Nat → List Nat → Bool` (address, bytes → acknowledged), and the raw
channel counts returned by acquisition are explicit parameters of the
lux computation.

The header tsl2561.h (register numbers, enum codes, scale and
calibration constants) is not part of the provided sources; those
constants are modelled from the specification, which pins the table
shape (8 segments of (ratioUpperBound, coeffB, coeffM) per package),
CH_SCALE = 10, and the standard TSL2561 reference values.
-/

namespace Tsl2561

/-- Reduction modulo 2^32: the value of a C uint32 expression. -/
def u32 (n : Nat) : Nat := n % 2^32

/-- 32-bit unsigned subtraction (wraps modulo 2^32). -/
def sub32 (a b : Nat) : Nat := (u32 a + (2^32 - u32 b)) % 2^32

/-- Modelled from the spec: tsl2561.h is missing from the sources; the
spec fixes the fixed-point shift width CH_SCALE at 10 bits. -/
def CH_SCALE : Nat := 10

/-- Modelled from the spec: tsl2561.h is missing; the ratio fixed-point
shift of the reference implementation (ratio scaled by 2^9). -/
def RATIO_SCALE : Nat := 9

/-- Modelled from the spec: tsl2561.h is missing; the lux fixed-point
shift of the reference implementation (coefficients scaled by 2^14). -/
def LUX_SCALE : Nat := 14

/-- Modelled from the spec: tsl2561.h is missing; the pre-computed
channel scale constant for the 13ms integration time (322/11 * 2^10). -/
def CHSCALE_TINT0 : Nat := 0x7517

/-- Modelled from the spec: tsl2561.h is missing; the pre-computed
channel scale constant for the 101ms integration time (322/81 * 2^10). -/
def CHSCALE_TINT1 : Nat := 0x0FE7

/-- Modelled from the spec: tsl2561.h is missing; timing-register code
for the 13ms integration time. -/
def TSL2561_INTEGRATION_13MS : Nat := 0x00

/-- Modelled from the spec: tsl2561.h is missing; timing-register code
for the 101ms integration time. -/
def TSL2561_INTEGRATION_101MS : Nat := 0x01

/-- Modelled from the spec: tsl2561.h is missing; timing-register code
for the 402ms integration time. -/
def TSL2561_INTEGRATION_402MS : Nat := 0x02

/-- Modelled from the spec: tsl2561.h is missing; timing-register code
for the low (1x) gain setting. -/
def TSL2561_GAIN_1X : Nat := 0x00

/-- Modelled from the spec: tsl2561.h is missing; timing-register code
for the high (16x) gain setting (bit 4). -/
def TSL2561_GAIN_16X : Nat := 0x10

/-- Modelled from the spec: tsl2561.h is missing; package-type code for
the CS package (top 2 bits of the part-id register). -/
def TSL2561_PACKAGE_CS : Nat := 0x00

/-- Modelled from the spec: tsl2561.h is missing; package-type code for
the T/FN/CL package. -/
def TSL2561_PACKAGE_T_FN_CL : Nat := 0x01

/-- Modelled from the spec: tsl2561.h is missing; command-bit constant
ORed into every register address. -/
def TSL2561_REG_COMMAND : Nat := 0x80

/-- Modelled from the spec: tsl2561.h is missing; control register. -/
def TSL2561_REG_CONTROL : Nat := 0x00

/-- Modelled from the spec: tsl2561.h is missing; timing register. -/
def TSL2561_REG_TIMING : Nat := 0x01

/-- Modelled from the spec: tsl2561.h is missing; power-on value. -/
def TSL2561_ON : Nat := 0x03

/-- Modelled from the spec: tsl2561.h is missing; power-off value. -/
def TSL2561_OFF : Nat := 0x00

/-- Modelled from the spec: tsl2561.h is missing; CS-package calibration
segment upper bounds K1C..K8C of the reference implementation. -/
def K1C : Nat := 0x0043
def K2C : Nat := 0x0085
def K3C : Nat := 0x00c8
def K4C : Nat := 0x010a
def K5C : Nat := 0x014d
def K6C : Nat := 0x019a
def K7C : Nat := 0x029a
def K8C : Nat := 0x029a

/-- Modelled from the spec: tsl2561.h is missing; CS-package calibration
coefficients B1C..B8C, M1C..M8C of the reference implementation. -/
def B1C : Nat := 0x0204
def M1C : Nat := 0x01ad
def B2C : Nat := 0x0228
def M2C : Nat := 0x02c1
def B3C : Nat := 0x0253
def M3C : Nat := 0x0363
def B4C : Nat := 0x0282
def M4C : Nat := 0x03df
def B5C : Nat := 0x0177
def M5C : Nat := 0x01dd
def B6C : Nat := 0x0101
def M6C : Nat := 0x0127
def B7C : Nat := 0x0037
def M7C : Nat := 0x002b
def B8C : Nat := 0x0000
def M8C : Nat := 0x0000

/-- Modelled from the spec: tsl2561.h is missing; T/FN/CL-package
calibration segment upper bounds K1T..K8T. -/
def K1T : Nat := 0x0040
def K2T : Nat := 0x0080
def K3T : Nat := 0x00c0
def K4T : Nat := 0x0100
def K5T : Nat := 0x0138
def K6T : Nat := 0x019a
def K7T : Nat := 0x029a
def K8T : Nat := 0x029a

/-- Modelled from the spec: tsl2561.h is missing; T/FN/CL-package
calibration coefficients B1T..B8T, M1T..M8T. -/
def B1T : Nat := 0x01f2
def M1T : Nat := 0x01be
def B2T : Nat := 0x0214
def M2T : Nat := 0x02d1
def B3T : Nat := 0x023f
def M3T : Nat := 0x037b
def B4T : Nat := 0x0270
def M4T : Nat := 0x03fe
def B5T : Nat := 0x016f
def M5T : Nat := 0x01fc
def B6T : Nat := 0x00d2
def M6T : Nat := 0x00fb
def B7T : Nat := 0x0018
def M7T : Nat := 0x0012
def B8T : Nat := 0x0000
def M8T : Nat := 0x0000

/-- Device handle, from struct tsl2561_t (tsl2561.h, used throughout
tsl2561.c): bus address plus the cached configuration fields. -/
structure tsl2561_t where
  i2c_addr : Nat
  gain : Nat
  integration_time : Nat
  package_type : Nat
deriving DecidableEq, Repr

/-- From tsl2561.c write_register: issues a two-byte bus write of the
command-ORed register number and the value; returns the acknowledgment
of the underlying i2c_slave_write, here an abstract bus oracle. -/
def write_register (bus : Nat → List Nat → Bool) (i2c_addr reg value : Nat) : Bool :=
  bus i2c_addr [TSL2561_REG_COMMAND ||| reg, value]

/-- From tsl2561.c enable: turns the chip on via the control register. -/
def enable (bus : Nat → List Nat → Bool) (i2c_addr : Nat) : Bool :=
  write_register bus i2c_addr TSL2561_REG_CONTROL TSL2561_ON

/-- From tsl2561.c disable: turns the chip off via the control register. -/
def disable (bus : Nat → List Nat → Bool) (i2c_addr : Nat) : Bool :=
  write_register bus i2c_addr TSL2561_REG_CONTROL TSL2561_OFF

/-- From tsl2561.c tsl2561_set_integration_time: enable, write the
timing register as the new id ORed with the cached gain, disable, then
store the id in the handle. The C function discards every write's
acknowledgment and returns void; the Bool component records the
acknowledgment of the timing-register write so that theorems can refer
to it. -/
def tsl2561_set_integration_time (bus : Nat → List Nat → Bool)
    (device : tsl2561_t) (integration_time_id : Nat) : tsl2561_t × Bool :=
  let _ := enable bus device.i2c_addr
  let ok := write_register bus device.i2c_addr TSL2561_REG_TIMING
      (integration_time_id ||| device.gain)
  let _ := disable bus device.i2c_addr
  ({ device with integration_time := integration_time_id }, ok)

/-- From tsl2561.c tsl2561_set_gain: enable, write the timing register
as the new gain ORed with the cached integration time, disable, then
store the gain in the handle. As above, the Bool component records the
acknowledgment of the timing-register write, which the C code discards. -/
def tsl2561_set_gain (bus : Nat → List Nat → Bool)
    (device : tsl2561_t) (gain : Nat) : tsl2561_t × Bool :=
  let _ := enable bus device.i2c_addr
  let ok := write_register bus device.i2c_addr TSL2561_REG_TIMING
      (gain ||| device.integration_time)
  let _ := disable bus device.i2c_addr
  ({ device with gain := gain }, ok)

/-- From tsl2561.c tsl2561_read_lux, first switch: the channel scale
before the gain adjustment, chosen by the integration-time code; any
code other than 13ms and 101ms (including 402ms) takes the default
branch, 1 shifted left by CH_SCALE. -/
def chScaleBase (integration_time : Nat) : Nat :=
  if integration_time = TSL2561_INTEGRATION_13MS then CHSCALE_TINT0
  else if integration_time = TSL2561_INTEGRATION_101MS then CHSCALE_TINT1
  else 1 <<< CH_SCALE

/-- From tsl2561.c tsl2561_read_lux: if the gain is the 1x setting the
scale is shifted left by 4 (a uint32 operation, hence the reduction). -/
def chScaleOf (integration_time gain : Nat) : Nat :=
  if gain = TSL2561_GAIN_1X then u32 (chScaleBase integration_time <<< 4)
  else chScaleBase integration_time

/-- From tsl2561.c tsl2561_read_lux: channel0 = (ch0 * chScale) >> CH_SCALE
computed in uint32 (the product wraps modulo 2^32), likewise channel1. -/
def scaleChannel (ch chScale : Nat) : Nat :=
  u32 (ch * chScale) >>> CH_SCALE

/-- From tsl2561.c tsl2561_read_lux: ratio1 is 0 when channel0 is 0
(divide-by-zero guard), else (channel1 << (RATIO_SCALE+1)) / channel0,
all in uint32. -/
def ratio1Of (channel0 channel1 : Nat) : Nat :=
  if channel0 ≠ 0 then u32 (channel1 <<< (RATIO_SCALE + 1)) / channel0 else 0

/-- From tsl2561.c tsl2561_read_lux: the rounded ratio (ratio1 + 1) >> 1
in uint32. -/
def ratioOf (channel0 channel1 : Nat) : Nat :=
  u32 (ratio1Of channel0 channel1 + 1) >>> 1

/-- From tsl2561.c tsl2561_read_lux, CS branch of the package switch:
the if/else-if chain assigning (b, m). The C chain has no final else:
when no branch fires, b and m stay uninitialized (undefined behavior),
modelled as none. -/
def selectCoeffCS (ratio : Nat) : Option (Nat × Nat) :=
  if 0 ≤ ratio ∧ ratio ≤ K1C then some (B1C, M1C)
  else if ratio ≤ K2C then some (B2C, M2C)
  else if ratio ≤ K3C then some (B3C, M3C)
  else if ratio ≤ K4C then some (B4C, M4C)
  else if ratio ≤ K5C then some (B5C, M5C)
  else if ratio ≤ K6C then some (B6C, M6C)
  else if ratio ≤ K7C then some (B7C, M7C)
  else if ratio > K8C then some (B8C, M8C)
  else none

/-- From tsl2561.c tsl2561_read_lux, T/FN/CL branch of the package
switch: the if/else-if chain assigning (b, m); none models the
fall-through with b and m uninitialized. -/
def selectCoeffT (ratio : Nat) : Option (Nat × Nat) :=
  if 0 ≤ ratio ∧ ratio ≤ K1T then some (B1T, M1T)
  else if ratio ≤ K2T then some (B2T, M2T)
  else if ratio ≤ K3T then some (B3T, M3T)
  else if ratio ≤ K4T then some (B4T, M4T)
  else if ratio ≤ K5T then some (B5T, M5T)
  else if ratio ≤ K6T then some (B6T, M6T)
  else if ratio ≤ K7T then some (B7T, M7T)
  else if ratio > K8T then some (B8T, M8T)
  else none

/-- From tsl2561.c tsl2561_read_lux, the package switch: CS and T/FN/CL
dispatch to their chains; the default case logs and sets b = m = 0. -/
def coeffsOf (package_type ratio : Nat) : Option (Nat × Nat) :=
  if package_type = TSL2561_PACKAGE_CS then selectCoeffCS ratio
  else if package_type = TSL2561_PACKAGE_T_FN_CL then selectCoeffT ratio
  else some (0, 0)

/-- From tsl2561.c tsl2561_read_lux: the clamp `if (temp < 0) temp = 0`
on the uint32 temp, kept exactly as written. -/
def clampTemp (temp : Nat) : Nat := if temp < 0 then 0 else temp

/-- From tsl2561.c tsl2561_read_lux, final steps: temp =
channel0*b - channel1*m in uint32, the clamp, the rounding add of
2^(LUX_SCALE-1), and the final shift right by LUX_SCALE. -/
def luxFrom (b m channel0 channel1 : Nat) : Nat :=
  u32 (clampTemp (sub32 (u32 (channel0 * b)) (u32 (channel1 * m)))
        + (1 <<< (LUX_SCALE - 1))) >>> LUX_SCALE

/-- As luxFrom but with the clamp branch removed, for comparison. -/
def luxFromNoClamp (b m channel0 channel1 : Nat) : Nat :=
  u32 (sub32 (u32 (channel0 * b)) (u32 (channel1 * m))
        + (1 <<< (LUX_SCALE - 1))) >>> LUX_SCALE

/-- From tsl2561.c tsl2561_read_lux, on already-scaled channel values:
ratio, coefficient selection, and the final lux arithmetic; none marks
the undefined-behavior fall-through of the coefficient chain. -/
def computeLuxScaled (package_type channel0 channel1 : Nat) : Option Nat :=
  (coeffsOf package_type (ratioOf channel0 channel1)).map
    (fun bm => luxFrom bm.1 bm.2 channel0 channel1)

/-- The lux computation of tsl2561.c tsl2561_read_lux as a function of
the handle configuration and the raw channel counts (ch0, ch1) returned
by get_channel_data (acquisition itself is external i2c traffic). -/
def computeLux (package_type gain integration_time ch0 ch1 : Nat) : Option Nat :=
  computeLuxScaled package_type
    (scaleChannel ch0 (chScaleOf integration_time gain))
    (scaleChannel ch1 (chScaleOf integration_time gain))

/-- As computeLux but with the clamp branch removed. -/
def computeLuxScaledNoClamp (package_type channel0 channel1 : Nat) : Option Nat :=
  (coeffsOf package_type (ratioOf channel0 channel1)).map
    (fun bm => luxFromNoClamp bm.1 bm.2 channel0 channel1)

/-- As computeLux but with the clamp branch removed. -/
def computeLuxNoClamp (package_type gain integration_time ch0 ch1 : Nat) : Option Nat :=
  computeLuxScaledNoClamp package_type
    (scaleChannel ch0 (chScaleOf integration_time gain))
    (scaleChannel ch1 (chScaleOf integration_time gain))

/-- The CS calibration table in order, as the spec's data model
describes it: 8 segments of (ratioUpperBound, coeffB, coeffM). -/
def csTable : List (Nat × Nat × Nat) :=
  [(K1C, B1C, M1C), (K2C, B2C, M2C), (K3C, B3C, M3C), (K4C, B4C, M4C),
   (K5C, B5C, M5C), (K6C, B6C, M6C), (K7C, B7C, M7C), (K8C, B8C, M8C)]

/-- The T/FN/CL calibration table in order, as the spec's data model
describes it. -/
def tTable : List (Nat × Nat × Nat) :=
  [(K1T, B1T, M1T), (K2T, B2T, M2T), (K3T, B3T, M3T), (K4T, B4T, M4T),
   (K5T, B5T, M5T), (K6T, B6T, M6T), (K7T, B7T, M7T), (K8T, B8T, M8T)]

/-- Segment selection as the spec words it: the first segment of the
ordered table whose upper bound is greater than or equal to the ratio
wins, and a ratio greater than every defined bound falls into the
highest segment. For the last segment the two clauses agree (its bound
either matches the ratio or the ratio exceeds every bound), so the last
segment is taken unconditionally. -/
def specSelect : List (Nat × Nat × Nat) → Nat → Option (Nat × Nat)
  | [], _ => none
  | [(_, b, m)], _ => some (b, m)
  | (k, b, m) :: s :: rest, ratio =>
    if ratio ≤ k then some (b, m) else specSelect (s :: rest) ratio

/-- Index (1 to 8) of the branch of the CS coefficient chain of
tsl2561_read_lux that fires for a given ratio; 0 marks the unreachable
fall-through where the C code would leave b and m uninitialized. -/
def segIdxCS (ratio : Nat) : Nat :=
  if 0 ≤ ratio ∧ ratio ≤ K1C then 1
  else if ratio ≤ K2C then 2
  else if ratio ≤ K3C then 3
  else if ratio ≤ K4C then 4
  else if ratio ≤ K5C then 5
  else if ratio ≤ K6C then 6
  else if ratio ≤ K7C then 7
  else if ratio > K8C then 8
  else 0

/-- Index (1 to 8) of the branch of the T/FN/CL coefficient chain of
tsl2561_read_lux that fires for a given ratio; 0 as above. -/
def segIdxT (ratio : Nat) : Nat :=
  if 0 ≤ ratio ∧ ratio ≤ K1T then 1
  else if ratio ≤ K2T then 2
  else if ratio ≤ K3T then 3
  else if ratio ≤ K4T then 4
  else if ratio ≤ K5T then 5
  else if ratio ≤ K6T then 6
  else if ratio ≤ K7T then 7
  else if ratio > K8T then 8
  else 0

set_option maxHeartbeats 1000000 in
lemma selectCoeffCS_eq_spec (ratio : Nat) :
    selectCoeffCS ratio = specSelect csTable ratio := by
  simp only [selectCoeffCS, specSelect, csTable,
    K1C, K2C, K3C, K4C, K5C, K6C, K7C, K8C,
    B1C, M1C, B2C, M2C, B3C, M3C, B4C, M4C, B5C, M5C, B6C, M6C, B7C, M7C, B8C, M8C]
  split_ifs <;> first | rfl | (exfalso; omega)

set_option maxHeartbeats 1000000 in
lemma selectCoeffT_eq_spec (ratio : Nat) :
    selectCoeffT ratio = specSelect tTable ratio := by
  simp only [selectCoeffT, specSelect, tTable,
    K1T, K2T, K3T, K4T, K5T, K6T, K7T, K8T,
    B1T, M1T, B2T, M2T, B3T, M3T, B4T, M4T, B5T, M5T, B6T, M6T, B7T, M7T, B8T, M8T]
  split_ifs <;> first | rfl | (exfalso; omega)

/-- C1: in tsl2561_read_lux, for both package types and every rounded
ratio value, the coefficient chain picks exactly the first segment of
the ordered calibration table whose upper bound is greater than or
equal to the ratio, and a ratio above every defined bound selects the
eighth segment's coefficients. -/
theorem segment_selection_first_match (ratio : Nat) :
    selectCoeffCS ratio = specSelect csTable ratio ∧
    selectCoeffT ratio = specSelect tTable ratio :=
  ⟨selectCoeffCS_eq_spec ratio, selectCoeffT_eq_spec ratio⟩

set_option maxHeartbeats 1600000 in
lemma segIdxCS_mono (r1 r2 : Nat) (h : r1 ≤ r2) : segIdxCS r1 ≤ segIdxCS r2 := by
  simp only [segIdxCS, K1C, K2C, K3C, K4C, K5C, K6C, K7C, K8C]
  split_ifs <;> omega

set_option maxHeartbeats 1600000 in
lemma segIdxT_mono (r1 r2 : Nat) (h : r1 ≤ r2) : segIdxT r1 ≤ segIdxT r2 := by
  simp only [segIdxT, K1T, K2T, K3T, K4T, K5T, K6T, K7T, K8T]
  split_ifs <;> omega

/-- C5: segment selection is monotone in the ratio for both package
types: a larger ratio never selects an earlier segment of the chain. -/
theorem segment_selection_monotone (r1 r2 : Nat) (h : r1 ≤ r2) :
    segIdxCS r1 ≤ segIdxCS r2 ∧ segIdxT r1 ≤ segIdxT r2 :=
  ⟨segIdxCS_mono r1 r2 h, segIdxT_mono r1 r2 h⟩

/-- Witness for C5 at the concrete pair (3, 500). -/
theorem segment_selection_monotone_witness :
    segIdxCS 3 ≤ segIdxCS 500 ∧ segIdxT 3 ≤ segIdxT 500 :=
  segment_selection_monotone 3 500 (by decide)

lemma clampTemp_id (temp : Nat) : clampTemp temp = temp := by
  unfold clampTemp
  exact if_neg (Nat.not_lt_zero _)

/-- C2: temp = channel0*b - channel1*m is computed modulo 2^32, the
clamp `if (temp < 0)` never fires on an unsigned value (removing it
changes nothing on any input), and on the concrete input below
(CS package, 16x gain, 402ms: scaled channels 10000 and 13000, segment
7 with b = 55 and m = 43, so channel1*m = 559000 exceeds
channel0*b = 550000) the returned lux 262143 comes from the wrapped
difference, not from the zero a clamp would give. -/
theorem unsigned_underflow_wraps :
    (∀ package_type gain integration_time ch0 ch1 : Nat,
      computeLux package_type gain integration_time ch0 ch1 =
        computeLuxNoClamp package_type gain integration_time ch0 ch1) ∧
    coeffsOf TSL2561_PACKAGE_CS
        (ratioOf
          (scaleChannel 10000 (chScaleOf TSL2561_INTEGRATION_402MS TSL2561_GAIN_16X))
          (scaleChannel 13000 (chScaleOf TSL2561_INTEGRATION_402MS TSL2561_GAIN_16X)))
      = some (B7C, M7C) ∧
    scaleChannel 10000 (chScaleOf TSL2561_INTEGRATION_402MS TSL2561_GAIN_16X) * B7C <
      scaleChannel 13000 (chScaleOf TSL2561_INTEGRATION_402MS TSL2561_GAIN_16X) * M7C ∧
    computeLux TSL2561_PACKAGE_CS TSL2561_GAIN_16X TSL2561_INTEGRATION_402MS 10000 13000
      = some 262143 ∧
    (262143 : Nat) ≠ u32 (0 + (1 <<< (LUX_SCALE - 1))) >>> LUX_SCALE := by
  refine ⟨?_, by decide, by decide, by decide, by decide⟩
  intro package_type gain integration_time ch0 ch1
  simp [computeLux, computeLuxScaled, computeLuxNoClamp, computeLuxScaledNoClamp,
    luxFrom, luxFromNoClamp, clampTemp_id]

/-- C3: with a scaled channel0 of 0 the guard yields ratio1 = 0 without
dividing, and the rounded ratio is 0; with channel0 nonzero, ratio1 is
the uint32 quotient (channel1 << (RATIO_SCALE+1)) / channel0 and the
ratio is (ratio1 + 1) >> 1. -/
theorem ratio_divide_guard (channel0 channel1 : Nat) :
    (channel0 = 0 →
      ratio1Of channel0 channel1 = 0 ∧ ratioOf channel0 channel1 = 0) ∧
    (channel0 ≠ 0 →
      ratio1Of channel0 channel1 = u32 (channel1 <<< (RATIO_SCALE + 1)) / channel0 ∧
      ratioOf channel0 channel1 = u32 (ratio1Of channel0 channel1 + 1) >>> 1) := by
  constructor
  · rintro rfl
    have h1 : ratio1Of 0 channel1 = 0 := by simp [ratio1Of]
    refine ⟨h1, ?_⟩
    rw [ratioOf, h1]
    decide
  · intro h
    exact ⟨by simp [ratio1Of, h], rfl⟩

/-- Witness for C3, at channel0 = 0 and at channel0 = 5. -/
theorem ratio_divide_guard_witness :
    (ratio1Of 0 7 = 0 ∧ ratioOf 0 7 = 0) ∧
    (ratio1Of 5 7 = u32 (7 <<< (RATIO_SCALE + 1)) / 5 ∧
     ratioOf 5 7 = u32 (ratio1Of 5 7 + 1) >>> 1) :=
  ⟨(ratio_divide_guard 0 7).1 rfl, (ratio_divide_guard 5 7).2 (by decide)⟩

/-- Modelled from the spec wording of claim C4 (tsl2561.h is missing):
the 13ms and 101ms settings each yield their pre-computed constant,
every other integration-time value yields 1 << CH_SCALE, and the 1x
gain setting scales the factor up by 16. -/
def spec_chScale (integration_time gain : Nat) : Nat :=
  (if gain = TSL2561_GAIN_1X then 16 else 1) *
  (if integration_time = TSL2561_INTEGRATION_13MS then CHSCALE_TINT0
   else if integration_time = TSL2561_INTEGRATION_101MS then CHSCALE_TINT1
   else 1 <<< CH_SCALE)

/-- C4: the channel scale factor is determined solely by the
integration time (13ms and 101ms get their constants, everything else
gets 1 << CH_SCALE), 1x gain shifts it left by 4 (equivalently a factor
16), and the raw counts are scaled as (ch * chScale) >> CH_SCALE in
uint32, which is exactly what computeLux feeds the rest of the
pipeline. -/
theorem chScale_and_channel_scaling
    (integration_time gain package_type ch0 ch1 : Nat) :
    chScaleOf integration_time gain = spec_chScale integration_time gain ∧
    scaleChannel ch0 (chScaleOf integration_time gain) =
      u32 (ch0 * chScaleOf integration_time gain) >>> CH_SCALE ∧
    computeLux package_type gain integration_time ch0 ch1 =
      computeLuxScaled package_type
        (scaleChannel ch0 (chScaleOf integration_time gain))
        (scaleChannel ch1 (chScaleOf integration_time gain)) := by
  refine ⟨?_, rfl, rfl⟩
  simp only [chScaleOf, chScaleBase, spec_chScale]
  split_ifs <;> decide

/-- C6: setGain then setIntegrationTime leaves the handle with exactly
the requested gain and integration time; each setter writes only its
own cached field and preserves the other one. -/
theorem setters_no_cross_clobber (bus : Nat → List Nat → Bool)
    (d : tsl2561_t) (G T : Nat) :
    (tsl2561_set_integration_time bus (tsl2561_set_gain bus d G).1 T).1.gain = G ∧
    (tsl2561_set_integration_time bus (tsl2561_set_gain bus d G).1 T).1.integration_time = T ∧
    (tsl2561_set_gain bus d G).1.integration_time = d.integration_time ∧
    (tsl2561_set_integration_time bus d T).1.gain = d.gain :=
  ⟨rfl, rfl, rfl, rfl⟩

/-- A bus oracle that never acknowledges: every write fails. -/
def failBus : Nat → List Nat → Bool := fun _ _ => false

/-- A concrete configured handle. -/
def sampleDevice : tsl2561_t :=
  { i2c_addr := 0x39, gain := TSL2561_GAIN_16X,
    integration_time := TSL2561_INTEGRATION_402MS,
    package_type := TSL2561_PACKAGE_T_FN_CL }

/-- C7 counterexample: on a bus whose writes all fail, the
timing-register write of tsl2561_set_gain does not succeed, yet the
cached gain is still changed to the new value - so the cache is not
updated only on successful writes. -/
theorem cache_updated_despite_failed_write :
    (tsl2561_set_gain failBus sampleDevice TSL2561_GAIN_1X).2 = false ∧
    (tsl2561_set_gain failBus sampleDevice TSL2561_GAIN_1X).1.gain = TSL2561_GAIN_1X ∧
    sampleDevice.gain ≠ TSL2561_GAIN_1X := by decide

/-- C7 amended: after every call to a setter the cached field equals
the value passed to the call, unconditionally - whatever the bus did
with the timing-register write. -/
theorem cache_reflects_last_request (bus : Nat → List Nat → Bool)
    (d : tsl2561_t) (g t : Nat) :
    (tsl2561_set_gain bus d g).1.gain = g ∧
    (tsl2561_set_integration_time bus d t).1.integration_time = t :=
  ⟨rfl, rfl⟩

/-- C8: an unrecognized package type yields coefficients b = m = 0, the
computation still returns a value (no abort), and the lux is the fixed
constant (0 + (1 << (LUX_SCALE-1))) >> LUX_SCALE for every input. -/
theorem unknown_package_fixed_lux
    (package_type gain integration_time ch0 ch1 r : Nat)
    (hcs : package_type ≠ TSL2561_PACKAGE_CS)
    (htfn : package_type ≠ TSL2561_PACKAGE_T_FN_CL) :
    coeffsOf package_type r = some (0, 0) ∧
    computeLux package_type gain integration_time ch0 ch1 =
      some ((0 + (1 <<< (LUX_SCALE - 1))) >>> LUX_SCALE) := by
  have hc : ∀ r0 : Nat, coeffsOf package_type r0 = some (0, 0) := by
    intro r0
    simp [coeffsOf, hcs, htfn]
  refine ⟨hc r, ?_⟩
  simp [computeLux, computeLuxScaled, hc, luxFrom, clampTemp, sub32, u32]
  decide

/-- Witness for C8 at package type 2 with raw counts (5, 6). -/
theorem unknown_package_fixed_lux_witness :
    coeffsOf 2 0 = some (0, 0) ∧
    computeLux 2 0 0 5 6 = some ((0 + (1 <<< (LUX_SCALE - 1))) >>> LUX_SCALE) :=
  unknown_package_fixed_lux 2 0 0 5 6 0 (by decide) (by decide)

/-- C9: the lux computation is deterministic - equal raw channel counts
and equal handle fields give an identical result. -/
theorem lux_computation_deterministic
    (p g t c0 c1 p2 g2 t2 c02 c12 : Nat)
    (hp : p = p2) (hg : g = g2) (ht : t = t2) (h0 : c0 = c02) (h1 : c1 = c12) :
    computeLux p g t c0 c1 = computeLux p2 g2 t2 c02 c12 := by
  subst hp; subst hg; subst ht; subst h0; subst h1; exact rfl

/-- Witness for C9 at two runs on the same concrete input. -/
theorem lux_computation_deterministic_witness :
    computeLux 1 0x10 2 100 50 = computeLux 1 0x10 2 100 50 :=
  lux_computation_deterministic 1 0x10 2 100 50 1 0x10 2 100 50 rfl rfl rfl rfl rfl

/-- C10: with 1x gain and the 13ms integration-time constant the scale
factor is 479600, the product 65535 * 479600 exceeds 2^32 - 1, so the
uint32 product wraps and the scaled count 1333803 is smaller than the
mathematically exact scaled count. -/
theorem channel_scaling_overflow_wraps :
    chScaleOf TSL2561_INTEGRATION_13MS TSL2561_GAIN_1X = 479600 ∧
    2 ^ 32 - 1 < 65535 * 479600 ∧
    u32 (65535 * 479600) ≠ 65535 * 479600 ∧
    scaleChannel 65535 (chScaleOf TSL2561_INTEGRATION_13MS TSL2561_GAIN_1X) =
      u32 (65535 * 479600) >>> CH_SCALE ∧
    scaleChannel 65535 (chScaleOf TSL2561_INTEGRATION_13MS TSL2561_GAIN_1X) = 1333803 ∧
    scaleChannel 65535 (chScaleOf TSL2561_INTEGRATION_13MS TSL2561_GAIN_1X) <
      (65535 * 479600) >>> CH_SCALE := by decide

end Tsl2561
